import Mathlib

/-!
Verification of the Defender arcade simulation (src/defender.py).

The relevant parts of the program are shallowly embedded below.  Real-valued
quantities (world coordinates, timers, velocities) are modelled as rationals,
machine integers as `Int`/`Nat`.  Python's `%` and `//` on numbers are floor
operations and are modelled with `Int.floor` / `Int.fdiv`.  Randomness is made
explicit: every random draw the code performs becomes an input parameter of the
embedded function.
-/

/-! ### Gameplay constants (src/defender.py lines 24-120) -/

def SCREEN_WIDTH : ℚ := 1180

def SCREEN_HEIGHT : ℚ := 760

def WORLD_WIDTH : ℚ := 6000

def HUD_HEIGHT : ℚ := 110

def PLAYFIELD_TOP : ℚ := HUD_HEIGHT + 60

def GRAVITY : ℚ := 168

def TERMINAL_VELOCITY : ℚ := 480

/-- Named SAFE\_LANDING\_HEIGHT\_RATIO (value 1.0/3.0) in the source. -/
def SAFE_LANDING_HEIGHT_FRAC : ℚ := 1 / 3

def HYPERSPACE_VANISH_TIME : ℚ := 6 / 100

def HYPERSPACE_REAPPEAR_DELAY : ℚ := 9 / 100

def HYPERSPACE_REAPPEAR_TIME : ℚ := 6 / 100

def HYPERSPACE_STABILIZE_TIME : ℚ := 9 / 100

/-! ### World geometry helpers (src/defender.py lines 273-297) -/

/-- `wrap_position` (line 273): wrap a world X coordinate into `[0, WORLD_WIDTH)`.
The source adds or subtracts `WORLD_WIDTH` at most once. -/
def wrap_position (x : ℚ) : ℚ :=
  if x < 0 then x + WORLD_WIDTH
  else if x ≥ WORLD_WIDTH then x - WORLD_WIDTH
  else x

/-- Python's `x % m` on numbers: floor modulus, `x - m * ⌊x / m⌋`. -/
def pymod (x m : ℚ) : ℚ := x - m * ⌊x / m⌋

/-- `shortest_offset` (line 282): shortest signed offset between two world X
positions; `raw` in the source is the floor modulus of the difference. -/
def shortest_offset (a b : ℚ) : ℚ :=
  if pymod (a - b) WORLD_WIDTH > WORLD_WIDTH / 2 then
    pymod (a - b) WORLD_WIDTH - WORLD_WIDTH
  else pymod (a - b) WORLD_WIDTH

/-- `clamp` (line 296). -/
def clamp (value low high : ℚ) : ℚ := max low (min high value)

/-! ### Colonist (`Human`) model, src/defender.py lines 772-889 and 2262-2269 -/

/-- Colonist finite states (line 782; `reserved` is not a state but the
`reserved_by` field). -/
inductive CState
  | ground
  | captured
  | falling
  | dead
  | carried
deriving DecidableEq

/-- The simulation-relevant fields of `Human`.  `reserved_by` and `carrier`
hold hostile identifiers (weak references modelled as ids).  `rect_h` is the
sprite height used for the ground-contact offset. -/
structure Human where
  cstate : CState
  x : ℚ
  y : ℚ
  vy : ℚ
  visible : Bool
  drop_start_y : ℚ
  safe_landing_rewarded : Bool
  reserved_by : Option ℕ
  carrier : Option ℕ
  rect_h : ℚ
deriving DecidableEq

/-- Game-side visual effects triggered at colonist impact. -/
inductive GameEffect
  | explosion
  | crater
deriving DecidableEq

/-- The game state a colonist update can touch: player score and the effect
log (`game.explosion` / `game.spawn_colonist_crater` calls). -/
structure GameSt where
  score : ℤ
  effects : List GameEffect
deriving DecidableEq

/-- `DefenderGame.colonist_safe_landing` (line 2262): one-shot rescue bonus. -/
def colonist_safe_landing (g : GameSt) (h : Human) : GameSt × Human :=
  if h.safe_landing_rewarded then (g, h)
  else ({ g with score := g.score + 250 },
        { h with safe_landing_rewarded := true })

/-- `Human.release_reservation` (line 887): clearing with `none` or with the
owning hostile clears the reservation, anything else is a no-op. -/
def release_reservation (h : Human) (lander : Option ℕ) : Human :=
  if lander = none ∨ h.reserved_by = lander then { h with reserved_by := none }
  else h

/-- `Human.start_falling` (line 832). -/
def start_falling (h : Human) : Human :=
  release_reservation
    { h with cstate := CState.falling, carrier := none, vy := 0, visible := true,
             drop_start_y := h.y, safe_landing_rewarded := false } none

/-- `Human.reserve_for_lander` (line 879): succeeds only from `ground` and
only when unreserved or already reserved by the same hostile. -/
def reserve_for_lander (h : Human) (lander : ℕ) : Human × Bool :=
  if h.cstate ≠ CState.ground then (h, false)
  else if h.reserved_by ≠ none ∧ h.reserved_by ≠ some lander then (h, false)
  else ({ h with reserved_by := some lander }, true)

/-- Playable vertical span `SCREEN_HEIGHT - PLAYFIELD_TOP` (line 799). -/
def full_span : ℚ := SCREEN_HEIGHT - PLAYFIELD_TOP

/-- Lethal drop threshold `full_span * SAFE_LANDING_HEIGHT_RATIO` (line 800). -/
def lethal_height : ℚ := full_span * SAFE_LANDING_HEIGHT_FRAC

/-- Catastrophic drop threshold `full_span * 0.75` (line 801). -/
def catastrophic_height : ℚ := full_span * (3 / 4)

/-- `Human.update` (lines 790-830).  `ground` is `terrain_height` at the
colonist's X (the terrain function is a fixed sum of sinusoids, supplied here
as a value); `cp` is the position of the carrier object when one exists
(`self.carrier` is truthy exactly when `cp` is `some`), `crh` its sprite
height. -/
def human_update (dt ground : ℚ) (cp : Option (ℚ × ℚ)) (crh : ℚ)
    (g : GameSt) (h : Human) : GameSt × Human :=
  if h.cstate = CState.falling then
    let vy := min (h.vy + GRAVITY * dt) TERMINAL_VELOCITY
    let y1 := h.y + vy * dt
    if y1 ≥ ground - h.rect_h / 2 then
      let y2 := ground - h.rect_h / 2
      let drop_height := max 0 (ground - h.drop_start_y)
      if drop_height ≥ catastrophic_height then
        ({ g with effects := GameEffect.explosion :: g.effects },
         { h with cstate := CState.dead, y := y2, vy := 0, visible := false })
      else if drop_height > lethal_height then
        ({ g with effects := GameEffect.crater :: g.effects },
         { h with cstate := CState.dead, y := y2, vy := 0, visible := false })
      else
        colonist_safe_landing g
          { h with cstate := CState.ground, y := y2, vy := 0, visible := true }
    else (g, { h with vy := vy, y := y1 })
  else if h.cstate = CState.captured then
    match cp with
    | some p => (g, { h with x := p.1, y := p.2 + (crh / 2 + h.rect_h / 2 - 4) })
    | none => (g, h)
  else if h.cstate = CState.carried then
    match cp with
    | some p =>
        (g, { h with x := p.1, y := p.2 + (crh / 2 + h.rect_h / 2 - 6), vy := 0 })
    | none => (g, start_falling h)
  else (g, h)

/-! ### Wave composition (src/defender.py lines 1770-1794) -/

/-- Per-category hostile counts of one wave (the dict returned by
`DefenderGame.wave_composition`). -/
structure WaveComposition where
  landers : ℤ
  bombers : ℤ
  pods : ℤ
  mutants : ℤ
  swarmer : ℤ
  baiters : ℤ
deriving DecidableEq

/-- `DefenderGame.wave_composition` (line 1770).  Python's `//` is flooring
division, `Int.fdiv`. -/
def wave_composition (wave : ℤ) : WaveComposition :=
  if wave = 1 then ⟨10, 0, 0, 0, 0, 0⟩
  else if wave = 2 then ⟨12, 2, 0, 0, 0, 0⟩
  else if wave = 3 then ⟨14, 3, 0, 0, 0, 0⟩
  else if wave = 4 then ⟨16, 4, 0, 0, 0, 0⟩
  else if wave = 5 then ⟨18, 5, 3, 0, 0, 0⟩
  else
    ⟨min 24 (18 + (wave - 5)), 5 + (wave - 5).fdiv 2,
     3 + max 0 ((wave - 5 - 1).fdiv 2), 0, 0, 0⟩

/-! ### Spawn queue (src/defender.py lines 1884-1887 and 2150-2153)

A pending spawn is keyed by `(scheduled_time, insertion_sequence)`; the
callable payload is omitted here because the sequence numbers are unique, so
the payload never participates in the heap comparison. -/

structure SpawnEntry where
  time : ℚ
  seq : ℕ
deriving DecidableEq

/-- Lexicographic order on `(scheduled_time, insertion_sequence)` keys — the
tuple order `heapq` uses. -/
def spawnLe (a b : SpawnEntry) : Prop :=
  a.time < b.time ∨ (a.time = b.time ∧ a.seq ≤ b.seq)

instance instDecidableSpawnLe (a b : SpawnEntry) : Decidable (spawnLe a b) := by
  unfold spawnLe
  exact inferInstance

/-- Removing the minimum entry from the pending multiset — the abstract
effect of `heapq.heappop` on the heap's contents. -/
def popMin : List SpawnEntry → Option (SpawnEntry × List SpawnEntry)
  | [] => none
  | e :: es =>
      match popMin es with
      | none => some (e, es)
      | some (m, r) => if spawnLe e m then some (e, es) else some (m, e :: r)

/-- The per-frame drain loop (line 2151): while the earliest pending entry's
time has elapsed, pop it and materialize it.  Returns the entries in
materialization order.  The fuel argument bounds the number of pops; each pop
removes one element, so `l.length` fuel is always enough. -/
def drainFuel (timer : ℚ) : ℕ → List SpawnEntry → List SpawnEntry
  | 0, _ => []
  | Nat.succ n, l =>
      match popMin l with
      | none => []
      | some (m, r) => if m.time ≤ timer then m :: drainFuel timer n r else []

def drain (timer : ℚ) (l : List SpawnEntry) : List SpawnEntry :=
  drainFuel timer l.length l

/-- The scheduler state touched by `queue_spawn`: elapsed wave time, the
running insertion sequence, and the pending heap contents. -/
structure SpawnQueue where
  wave_timer : ℚ
  spawn_sequence : ℕ
  pending : List SpawnEntry
deriving DecidableEq

/-- `DefenderGame.queue_spawn` (line 1884): bump the sequence and push
`(wave_timer + delay, sequence)`. -/
def queue_spawn (q : SpawnQueue) (delay : ℚ) : SpawnQueue :=
  { q with spawn_sequence := q.spawn_sequence + 1,
           pending := ⟨q.wave_timer + delay, q.spawn_sequence + 1⟩ :: q.pending }

/-! ### Hyperspace jump and teleport state machine
(src/defender.py lines 1176-1250 and 2006-2051) -/

/-- `DefenderGame.is_hyperspace_safe` (line 2006).  `terrain` stands for
`terrain_height`, `enemies` and `mines` are the hostile and mine positions. -/
def is_hyperspace_safe (terrain : ℚ → ℚ) (enemies mines : List (ℚ × ℚ))
    (x y : ℚ) : Bool :=
  if y < terrain x + 60 ∨ y > SCREEN_HEIGHT - 80 then false
  else if enemies.any fun e =>
      decide (|shortest_offset e.1 x| < 80 ∧ |e.2 - y| < 80) then false
  else if mines.any fun m =>
      decide (|shortest_offset m.1 x| < 70 ∧ |m.2 - y| < 70) then false
  else true

/-- `DefenderGame.perform_hyperspace_jump` destination selection (lines
2019-2037).  `draws 0`, `draws 1`, `draws 2` are the three random candidates
tried in order; when none is safe the code draws a fresh fourth random
position (`draws 3`) and uses it unsafely.  Returns the destination and the
safety flag (`player.hit()` is invoked exactly when the flag is false). -/
def perform_hyperspace_jump (terrain : ℚ → ℚ) (enemies mines : List (ℚ × ℚ))
    (draws : ℕ → ℚ × ℚ) : (ℚ × ℚ) × Bool :=
  if is_hyperspace_safe terrain enemies mines (draws 0).1 (draws 0).2 then
    (draws 0, true)
  else if is_hyperspace_safe terrain enemies mines (draws 1).1 (draws 1).2 then
    (draws 1, true)
  else if is_hyperspace_safe terrain enemies mines (draws 2).1 (draws 2).2 then
    (draws 2, true)
  else (draws 3, false)

/-- Teleport phases (`hyperspace_state`, line 928). -/
inductive HPhase
  | idle
  | vanish
  | jump
  | reappear
  | stabilize
deriving DecidableEq

/-- Player/teleport state relevant to the jump: phase, phase timer, the count
of inbound shards not yet finished, the remaining durations of those shards,
the number of `hit()` invocations, position, and the radar warning flag. -/
structure HyperSt where
  phase : HPhase
  timer : ℚ
  inbound : ℕ
  shards : List ℚ
  hits : ℕ
  pos : ℚ × ℚ
  radar_warning : Bool
deriving DecidableEq

/-- `Player.update_hyperspace` (lines 1196-1250): the vanish → jump →
reappear → stabilize → idle flow.  The jump transition performs
`perform_hyperspace_jump`; the reappear transition spawns the inbound shards
(their durations are the `shard_durations` parameter, as the source draws
them from the ship sprite and a random generator). -/
def update_hyperspace (terrain : ℚ → ℚ) (enemies mines : List (ℚ × ℚ))
    (draws : ℕ → ℚ × ℚ) (shard_durations : List ℚ) (dt : ℚ)
    (s : HyperSt) : HyperSt :=
  match s.phase with
  | HPhase.idle => s
  | HPhase.vanish =>
      let t := s.timer + dt
      if t ≥ HYPERSPACE_VANISH_TIME then
        let jump := perform_hyperspace_jump terrain enemies mines draws
        { s with phase := HPhase.jump, timer := 0, pos := jump.1,
                 radar_warning := !jump.2,
                 hits := s.hits + (if jump.2 then 0 else 1) }
      else { s with timer := t }
  | HPhase.jump =>
      let t := s.timer + dt
      if t ≥ HYPERSPACE_REAPPEAR_DELAY then
        { s with phase := HPhase.reappear, timer := 0,
                 shards := shard_durations,
                 inbound := shard_durations.length }
      else { s with timer := t }
  | HPhase.reappear =>
      let t := s.timer + dt
      if t ≥ HYPERSPACE_REAPPEAR_TIME ∧ s.inbound = 0 then
        { s with phase := HPhase.stabilize, timer := 0 }
      else { s with timer := t }
  | HPhase.stabilize =>
      let t := s.timer + dt
      if t ≥ HYPERSPACE_STABILIZE_TIME then
        { s with phase := HPhase.idle, timer := 0 }
      else { s with timer := t }

/-- `HyperspaceShard.update` over one frame for every live inbound shard
(lines 759-771): each shard whose remaining duration elapses kills itself and
notifies the player, decrementing the inbound count. -/
def update_shards (dt : ℚ) (s : HyperSt) : HyperSt :=
  { s with
      shards := (s.shards.map fun d => d - dt).filter fun d => decide (0 < d),
      inbound := s.inbound -
        (s.shards.length -
          ((s.shards.map fun d => d - dt).filter fun d => decide (0 < d)).length) }

/-- One simulation frame restricted to the teleport machinery: the player
update (which runs `update_hyperspace`) happens before the sprite pass that
advances the shards (`DefenderGame.update`, lines 2131-2144). -/
def hs_frame (terrain : ℚ → ℚ) (enemies mines : List (ℚ × ℚ))
    (draws : ℕ → ℚ × ℚ) (shard_durations : List ℚ) (dt : ℚ)
    (s : HyperSt) : HyperSt :=
  update_shards dt
    (update_hyperspace terrain enemies mines draws shard_durations dt s)

/-! ### Capturing hostile (`Lander`) reaction to a destroyed captive
(src/defender.py lines 841-852 and 1401-1406) -/

/-- Lander finite states (line 1287). -/
inductive LState
  | patrolling
  | descending
  | ascending
deriving DecidableEq

/-- The `Lander` fields touched by `on_captive_removed`. -/
structure LanderSt where
  y : ℚ
  home_altitude : ℚ
  patrol_direction : ℤ
  lstate : LState
  target : Option ℕ
deriving DecidableEq

/-- `Lander.on_captive_removed` (line 1401): clear the target, fall back to
patrolling when mid-descent/ascent, set the home altitude to the CURRENT
altitude clamped into the patrol band, and pick a random patrol direction
(`rnd_dir` is the value `random.choice([-1, 1])` returns). -/
def on_captive_removed (rnd_dir : ℤ) (l : LanderSt) : LanderSt :=
  { l with
      target := none
      lstate := if l.lstate = LState.descending ∨ l.lstate = LState.ascending
                then LState.patrolling else l.lstate
      home_altitude := clamp l.y (PLAYFIELD_TOP + 40) (PLAYFIELD_TOP + 160)
      patrol_direction := rnd_dir }

/-- `Human.die` (line 841): mark dead, clear references, and notify the
carrier (when there is one) via `on_captive_removed`. -/
def human_die (rnd_dir : ℤ) (h : Human) (carrier : Option LanderSt) :
    Human × Option LanderSt :=
  if h.cstate = CState.dead then (h, carrier)
  else
    (release_reservation
      { h with cstate := CState.dead, visible := false, carrier := none,
               vy := 0 } none,
     match carrier with
     | some l => some (on_captive_removed rnd_dir l)
     | none => none)

/-! ### Extra lives (src/defender.py lines 1057-1063) -/

/-- The `Player` fields `check_extra_life` reads and writes. -/
structure PlayerLife where
  lives : ℤ
  lives_awarded : ℤ
  score : ℤ
deriving DecidableEq

/-- `Player.check_extra_life` (line 1057). -/
def check_extra_life (p : PlayerLife) : PlayerLife :=
  if p.lives ≥ 5 then p
  else if p.score ≥ (p.lives_awarded + 1) * 10000 then
    { p with lives := p.lives + 1, lives_awarded := p.lives_awarded + 1 }
  else p

/-! ### Geometry lemmas -/

theorem pymod_nonneg (x m : ℚ) (hm : 0 < m) : 0 ≤ pymod x m := by
  unfold pymod
  have h1 : ((⌊x / m⌋ : ℚ)) ≤ x / m := Int.floor_le _
  have h3 : ((⌊x / m⌋ : ℚ)) * m ≤ x / m * m := mul_le_mul_of_nonneg_right h1 hm.le
  rw [div_mul_cancel₀ x hm.ne'] at h3
  nlinarith [h3]

theorem pymod_lt (x m : ℚ) (hm : 0 < m) : pymod x m < m := by
  unfold pymod
  have h2 : x / m < (⌊x / m⌋ : ℚ) + 1 := Int.lt_floor_add_one _
  have h4 : x / m * m < ((⌊x / m⌋ : ℚ) + 1) * m := mul_lt_mul_of_pos_right h2 hm
  rw [div_mul_cancel₀ x hm.ne'] at h4
  nlinarith [h4]

theorem wrap_position_eq_self (x : ℚ) (h1 : 0 ≤ x) (h2 : x < WORLD_WIDTH) :
    wrap_position x = x := by
  unfold wrap_position
  rw [if_neg (by linarith), if_neg (by linarith)]

theorem wrap_position_sub_mul (a : ℚ) (k : ℤ) (h0 : 0 ≤ a) (h1 : a < WORLD_WIDTH)
    (hk : k = 0 ∨ k = -1 ∨ k = 1) :
    wrap_position (a - WORLD_WIDTH * (k : ℚ)) = a := by
  have hW : (0 : ℚ) < WORLD_WIDTH := by norm_num [WORLD_WIDTH]
  rcases hk with hk | hk | hk <;> subst hk <;> unfold wrap_position <;> push_cast
  · rw [if_neg (by linarith), if_neg (by push_neg; linarith)]
    ring
  · rw [if_neg (by linarith), if_pos (by linarith)]
    ring
  · rw [if_pos (by linarith)]
    ring

/-- Claim C1 counterexample: at `x = -6001` the wrapped value is `-1`, which is
not in `[0, WORLD_WIDTH)`, and wrapping is not idempotent there. -/
theorem c1_wrap_counterexample :
    ¬ (0 ≤ wrap_position (-6001) ∧ wrap_position (-6001) < WORLD_WIDTH ∧
       wrap_position (wrap_position (-6001)) = wrap_position (-6001)) := by
  norm_num [wrap_position, WORLD_WIDTH]

/-- Claim C1 (amended): for every x in `[-WORLD_WIDTH, 2 * WORLD_WIDTH)` —
which covers every position the game ever feeds to the helper, since callers
move an already-normalized coordinate by less than one world width —
`wrap_position x` lies in `[0, WORLD_WIDTH)` and wrapping is idempotent.
Outside that interval a single addition or subtraction of `WORLD_WIDTH`
cannot normalize the input, so the original unrestricted claim fails. -/
theorem c1_wrap_range_idempotent (x : ℚ)
    (h1 : -WORLD_WIDTH ≤ x) (h2 : x < 2 * WORLD_WIDTH) :
    0 ≤ wrap_position x ∧ wrap_position x < WORLD_WIDTH ∧
      wrap_position (wrap_position x) = wrap_position x := by
  have hW : (0 : ℚ) < WORLD_WIDTH := by norm_num [WORLD_WIDTH]
  have hmem : 0 ≤ wrap_position x ∧ wrap_position x < WORLD_WIDTH := by
    unfold wrap_position
    split_ifs with ha hb
    · constructor <;> linarith
    · constructor <;> linarith
    · constructor <;> linarith
  refine ⟨hmem.1, hmem.2, ?_⟩
  exact wrap_position_eq_self _ hmem.1 hmem.2

/-- Claim C1 witness: concrete instance of the amended claim at `x = -500`. -/
theorem c1_wrap_witness :
    0 ≤ wrap_position (-500) ∧ wrap_position (-500) < WORLD_WIDTH ∧
      wrap_position (wrap_position (-500)) = wrap_position (-500) :=
  c1_wrap_range_idempotent (-500) (by norm_num [WORLD_WIDTH])
    (by norm_num [WORLD_WIDTH])

/-- Claim C2 counterexample: for `a = 12000`, `b = 0` (a not-normalized input)
the round trip fails: `wrap(b + shortestOffset(a,b)) = 0` but `wrap(a) = 6000`. -/
theorem c2_offset_counterexample :
    wrap_position (0 + shortest_offset 12000 0) ≠ wrap_position 12000 := by
  norm_num [wrap_position, shortest_offset, pymod, WORLD_WIDTH]

/-- Claim C2 (amended): the magnitude bound `|shortestOffset(a,b)| ≤ WIDTH/2`
holds for all rational inputs; the round trip
`wrap(b + shortestOffset(a,b)) = wrap(a)` holds for all normalized world
positions `a, b ∈ [0, WORLD_WIDTH)` (the data-model invariant for stored
world X), but not for arbitrary real inputs. -/
theorem c2_shortest_offset_spec :
    (∀ a b : ℚ, |shortest_offset a b| ≤ WORLD_WIDTH / 2) ∧
    (∀ a b : ℚ, 0 ≤ a → a < WORLD_WIDTH → 0 ≤ b → b < WORLD_WIDTH →
      wrap_position (b + shortest_offset a b) = wrap_position a) := by
  have hW : (0 : ℚ) < WORLD_WIDTH := by norm_num [WORLD_WIDTH]
  constructor
  · intro a b
    have h0 := pymod_nonneg (a - b) WORLD_WIDTH hW
    have h1 := pymod_lt (a - b) WORLD_WIDTH hW
    unfold shortest_offset
    split_ifs with hr
    · rw [abs_le]; constructor <;> linarith
    · rw [abs_le]; constructor <;> linarith
  · intro a b ha0 ha1 hb0 hb1
    have hwa : wrap_position a = a := wrap_position_eq_self a ha0 ha1
    -- the floor of (a-b)/WORLD_WIDTH is -1 or 0
    set z : ℚ := (a - b) / WORLD_WIDTH with hz
    have hzlo : (-1 : ℚ) < z := by
      rw [hz, lt_div_iff₀ hW]; linarith
    have hzhi : z < 1 := by
      rw [hz, div_lt_iff₀ hW]; linarith
    have hfl : (⌊z⌋ : ℚ) ≤ z := Int.floor_le _
    have hfh : z < (⌊z⌋ : ℚ) + 1 := Int.lt_floor_add_one _
    have hk1 : (⌊z⌋ : ℚ) < 1 := lt_of_le_of_lt hfl hzhi
    have hk2 : (-2 : ℚ) < (⌊z⌋ : ℚ) := by linarith
    have hk1' : ⌊z⌋ < 1 := by exact_mod_cast hk1
    have hk2' : (-2 : ℤ) < ⌊z⌋ := by exact_mod_cast hk2
    have hcases : ⌊z⌋ = 0 ∨ ⌊z⌋ = -1 := by omega
    have hraw : pymod (a - b) WORLD_WIDTH = a - b - WORLD_WIDTH * (⌊z⌋ : ℚ) := by
      unfold pymod; rw [← hz]
    unfold shortest_offset
    rw [hraw, hwa]
    split_ifs with hr
    · have hstep : b + (a - b - WORLD_WIDTH * (⌊z⌋ : ℚ) - WORLD_WIDTH)
          = a - WORLD_WIDTH * ((⌊z⌋ + 1 : ℤ) : ℚ) := by
        push_cast; ring
      rw [hstep]
      exact wrap_position_sub_mul a (⌊z⌋ + 1) ha0 ha1 (by omega)
    · have hstep : b + (a - b - WORLD_WIDTH * (⌊z⌋ : ℚ))
          = a - WORLD_WIDTH * ((⌊z⌋ : ℤ) : ℚ) := by
        ring
      rw [hstep]
      exact wrap_position_sub_mul a ⌊z⌋ ha0 ha1 (by omega)

/-- Claim C2 witness: concrete instance of the round-trip at `a = 100`,
`b = 5900`. -/
theorem c2_shortest_offset_witness :
    wrap_position (5900 + shortest_offset 100 5900) = wrap_position 100 :=
  c2_shortest_offset_spec.2 100 5900 (by norm_num) (by norm_num [WORLD_WIDTH])
    (by norm_num) (by norm_num [WORLD_WIDTH])

/-! ### Colonist drop-height policy -/

theorem lethal_lt_catastrophic : lethal_height < catastrophic_height := by
  norm_num [lethal_height, catastrophic_height, full_span, SCREEN_HEIGHT,
    PLAYFIELD_TOP, HUD_HEIGHT, SAFE_LANDING_HEIGHT_FRAC]

theorem lethal_height_pos : 0 < lethal_height := by
  norm_num [lethal_height, full_span, SCREEN_HEIGHT, PLAYFIELD_TOP, HUD_HEIGHT,
    SAFE_LANDING_HEIGHT_FRAC]

/-- Claim C3: at ground impact the outcome is decided by the height fallen
against the lethal and (strictly higher) catastrophic thresholds, both
fractions of the playable span: below lethal the colonist lands `ground`,
visible, with the rescue bonus awarded exactly once per fall (a repeated
safe-landing call changes nothing); strictly between the thresholds it dies
with the crater effect; at or above catastrophic it dies with the explosion
effect.  A new fall (`start_falling`) re-arms the one-shot reward flag. -/
theorem c3_drop_height_policy (dt ground : ℚ) (cp : Option (ℚ × ℚ)) (crh : ℚ)
    (g : GameSt) (h : Human)
    (hfall : h.cstate = CState.falling)
    (himpact : h.y + min (h.vy + GRAVITY * dt) TERMINAL_VELOCITY * dt
        ≥ ground - h.rect_h / 2) :
    lethal_height < catastrophic_height ∧
    (ground - h.drop_start_y < lethal_height →
      (human_update dt ground cp crh g h).2.cstate = CState.ground ∧
      (human_update dt ground cp crh g h).2.visible = true ∧
      (h.safe_landing_rewarded = false →
        (human_update dt ground cp crh g h).1.score = g.score + 250) ∧
      (human_update dt ground cp crh g h).2.safe_landing_rewarded = true ∧
      colonist_safe_landing (human_update dt ground cp crh g h).1
          (human_update dt ground cp crh g h).2
        = ((human_update dt ground cp crh g h).1,
           (human_update dt ground cp crh g h).2)) ∧
    (lethal_height < ground - h.drop_start_y →
      ground - h.drop_start_y < catastrophic_height →
      (human_update dt ground cp crh g h).2.cstate = CState.dead ∧
      (human_update dt ground cp crh g h).1.effects
        = GameEffect.crater :: g.effects) ∧
    (catastrophic_height ≤ ground - h.drop_start_y →
      (human_update dt ground cp crh g h).2.cstate = CState.dead ∧
      (human_update dt ground cp crh g h).1.effects
        = GameEffect.explosion :: g.effects) ∧
    (start_falling h).safe_landing_rewarded = false := by
  have hlc := lethal_lt_catastrophic
  have hlp := lethal_height_pos
  refine ⟨hlc, ?_, ?_, ?_, ?_⟩
  · intro hsafe
    have hdrop : max 0 (ground - h.drop_start_y) < lethal_height :=
      max_lt hlp hsafe
    have hu : human_update dt ground cp crh g h
        = colonist_safe_landing g
            { h with cstate := CState.ground, y := ground - h.rect_h / 2,
                     vy := 0, visible := true } := by
      unfold human_update
      rw [if_pos hfall, if_pos himpact, if_neg (by push_neg; linarith),
        if_neg (by push_neg; linarith)]
    rw [hu]
    unfold colonist_safe_landing
    by_cases hrew : h.safe_landing_rewarded <;> simp [hrew]
  · intro hlo hhi
    have hdrop1 : max 0 (ground - h.drop_start_y) > lethal_height := by
      rw [max_def]; split_ifs <;> linarith
    have hdrop2 : ¬ (max 0 (ground - h.drop_start_y) ≥ catastrophic_height) := by
      push_neg; rw [max_def]; split_ifs <;> linarith
    have hu : human_update dt ground cp crh g h
        = ({ g with effects := GameEffect.crater :: g.effects },
           { h with cstate := CState.dead, y := ground - h.rect_h / 2,
                    vy := 0, visible := false }) := by
      unfold human_update
      rw [if_pos hfall, if_pos himpact, if_neg hdrop2, if_pos hdrop1]
    rw [hu]
    exact ⟨rfl, rfl⟩
  · intro hcat
    have hdrop : max 0 (ground - h.drop_start_y) ≥ catastrophic_height := by
      rw [max_def]; split_ifs <;> linarith
    have hu : human_update dt ground cp crh g h
        = ({ g with effects := GameEffect.explosion :: g.effects },
           { h with cstate := CState.dead, y := ground - h.rect_h / 2,
                    vy := 0, visible := false }) := by
      unfold human_update
      rw [if_pos hfall, if_pos himpact, if_pos hdrop]
    rw [hu]
    exact ⟨rfl, rfl⟩
  · unfold start_falling release_reservation
    split_ifs <;> rfl

/-- Concrete colonist used to witness claim C3: falling, 100 units above the
ground line, reward flag armed. -/
def c3_colonist : Human :=
  { cstate := CState.falling, x := 300, y := 550, vy := 0, visible := true,
    drop_start_y := 550, safe_landing_rewarded := false, reserved_by := none,
    carrier := none, rect_h := 16 }

/-- Claim C3 witness: dropping the concrete colonist 100 units (below the
lethal threshold) lands it alive and scores the bonus. -/
theorem c3_drop_height_witness :
    (human_update 10 650 none 0 ⟨0, []⟩ c3_colonist).2.cstate = CState.ground ∧
    (human_update 10 650 none 0 ⟨0, []⟩ c3_colonist).1.score = 0 + 250 := by
  have h := c3_drop_height_policy 10 650 none 0 ⟨0, []⟩ c3_colonist rfl
    (by norm_num [c3_colonist, GRAVITY, TERMINAL_VELOCITY])
  have hsafe := h.2.1 (by
    norm_num [c3_colonist, lethal_height, full_span, SCREEN_HEIGHT,
      PLAYFIELD_TOP, HUD_HEIGHT, SAFE_LANDING_HEIGHT_FRAC])
  exact ⟨hsafe.1, hsafe.2.2.1 rfl⟩

/-! ### Claim C4: concrete drop scenarios -/

/-- Colonist dropped from a fall height of exactly the lethal threshold
(drop start `650 - lethal_height`, terrain at `650`). -/
def c4_colonist_lethal : Human :=
  { cstate := CState.falling, x := 300, y := 650 - lethal_height, vy := 0,
    visible := true, drop_start_y := 650 - lethal_height,
    safe_landing_rewarded := false, reserved_by := none, carrier := none,
    rect_h := 16 }

/-- Colonist dropped from a fall height of 0.9 times the catastrophic
threshold. -/
def c4_colonist_zero9cat : Human :=
  { cstate := CState.falling, x := 300,
    y := 650 - (9 / 10) * catastrophic_height, vy := 0, visible := true,
    drop_start_y := 650 - (9 / 10) * catastrophic_height,
    safe_landing_rewarded := false, reserved_by := none, carrier := none,
    rect_h := 16 }

/-- Claim C4 counterexample: a fall of 0.9 times the catastrophic threshold is
below the catastrophic threshold, so the colonist dies with the ground-scar
(crater) effect, not the full explosion the claim asserts. -/
theorem c4_drop_scenarios_counterexample :
    (human_update 10 650 none 0 ⟨0, []⟩ c4_colonist_zero9cat).2.cstate
        = CState.dead ∧
    (human_update 10 650 none 0 ⟨0, []⟩ c4_colonist_zero9cat).1.effects
        = [GameEffect.crater] ∧
    [GameEffect.crater] ≠ [GameEffect.explosion] := by
  refine ⟨?_, ?_, by decide⟩ <;>
    norm_num [human_update, c4_colonist_zero9cat, colonist_safe_landing,
      min_def, max_def, lethal_height, catastrophic_height, full_span,
      SCREEN_HEIGHT, PLAYFIELD_TOP, HUD_HEIGHT, SAFE_LANDING_HEIGHT_FRAC,
      GRAVITY, TERMINAL_VELOCITY]

/-- Claim C4 (amended): dropping the single colonist from exactly the lethal
threshold leaves it `ground`-alive with +250 scored exactly once (a repeated
safe-landing call changes nothing); dropping from 0.9 times the catastrophic
threshold leaves it `dead` with the ground-scar (crater) effect rather than
the full explosion. -/
theorem c4_drop_scenarios :
    ((human_update 10 650 none 0 ⟨0, []⟩ c4_colonist_lethal).2.cstate
        = CState.ground ∧
     (human_update 10 650 none 0 ⟨0, []⟩ c4_colonist_lethal).2.visible = true ∧
     (human_update 10 650 none 0 ⟨0, []⟩ c4_colonist_lethal).1.score = 250 ∧
     colonist_safe_landing
         (human_update 10 650 none 0 ⟨0, []⟩ c4_colonist_lethal).1
         (human_update 10 650 none 0 ⟨0, []⟩ c4_colonist_lethal).2
       = ((human_update 10 650 none 0 ⟨0, []⟩ c4_colonist_lethal).1,
          (human_update 10 650 none 0 ⟨0, []⟩ c4_colonist_lethal).2)) ∧
    ((human_update 10 650 none 0 ⟨0, []⟩ c4_colonist_zero9cat).2.cstate
        = CState.dead ∧
     (human_update 10 650 none 0 ⟨0, []⟩ c4_colonist_zero9cat).1.effects
        = [GameEffect.crater]) := by
  refine ⟨⟨?_, ?_, ?_, ?_⟩, ?_, ?_⟩ <;>
    norm_num [human_update, c4_colonist_lethal, c4_colonist_zero9cat,
      colonist_safe_landing, min_def, max_def, lethal_height,
      catastrophic_height, full_span, SCREEN_HEIGHT, PLAYFIELD_TOP,
      HUD_HEIGHT, SAFE_LANDING_HEIGHT_FRAC, GRAVITY, TERMINAL_VELOCITY]

/-! ### Claim C5: reservation handshake -/

/-- Claim C5: a reservation succeeds only from `ground` and only when the
colonist is unreserved or reserved by the same hostile; after a successful
reservation by `l1`, any distinct hostile `l2` fails to reserve, so two
distinct hostiles never hold the reservation simultaneously; and releasing
with a non-owning hostile reference is a no-op. -/
theorem c5_reservation_handshake :
    (∀ (h : Human) (l : ℕ), (reserve_for_lander h l).2 = true →
      h.cstate = CState.ground ∧
        (h.reserved_by = none ∨ h.reserved_by = some l)) ∧
    (∀ (h : Human) (l1 l2 : ℕ), l1 ≠ l2 →
      (reserve_for_lander h l1).2 = true →
      (reserve_for_lander (reserve_for_lander h l1).1 l2).2 = false) ∧
    (∀ (h : Human) (l1 l2 : ℕ), h.reserved_by = some l1 → l1 ≠ l2 →
      release_reservation h (some l2) = h) := by
  have hsuccess : ∀ (h : Human) (l : ℕ), (reserve_for_lander h l).2 = true →
      h.cstate = CState.ground ∧
        (h.reserved_by = none ∨ h.reserved_by = some l) ∧
        (reserve_for_lander h l).1 = { h with reserved_by := some l } := by
    intro h l hsucc
    unfold reserve_for_lander at hsucc ⊢
    by_cases h1 : h.cstate ≠ CState.ground
    · rw [if_pos h1] at hsucc
      exact absurd hsucc (by simp)
    · by_cases h2 : h.reserved_by ≠ none ∧ h.reserved_by ≠ some l
      · rw [if_neg h1, if_pos h2] at hsucc
        exact absurd hsucc (by simp)
      · push_neg at h1 h2
        refine ⟨h1, ?_, by rw [if_neg (by simp [h1]), if_neg (by
          push_neg
          exact h2)]⟩
        by_cases h3 : h.reserved_by = none
        · exact Or.inl h3
        · exact Or.inr (h2 h3)
  refine ⟨fun h l hs => ⟨(hsuccess h l hs).1, (hsuccess h l hs).2.1⟩, ?_, ?_⟩
  · intro h l1 l2 hne hsucc
    rw [(hsuccess h l1 hsucc).2.2]
    unfold reserve_for_lander
    rw [if_neg (by simp [(hsuccess h l1 hsucc).1]),
      if_pos (by exact ⟨by simp, by simpa using hne⟩)]
  · intro h l1 l2 hres hne
    unfold release_reservation
    rw [if_neg (by
      push_neg
      refine ⟨by simp, ?_⟩
      rw [hres]
      simp [hne])]

/-- Concrete ground colonist used to witness claim C5. -/
def c5_colonist : Human :=
  { cstate := CState.ground, x := 0, y := 0, vy := 0, visible := true,
    drop_start_y := 0, safe_landing_rewarded := true, reserved_by := none,
    carrier := none, rect_h := 16 }

/-- Claim C5 witness: hostile 0 reserves the concrete colonist, hostile 1 then
fails, and hostile 1's release attempt leaves hostile 0's reservation. -/
theorem c5_reservation_witness :
    (reserve_for_lander (reserve_for_lander c5_colonist 0).1 1).2 = false ∧
    release_reservation { c5_colonist with reserved_by := some 0 } (some 1)
      = { c5_colonist with reserved_by := some 0 } :=
  ⟨c5_reservation_handshake.2.1 c5_colonist 0 1 (by decide) rfl,
   c5_reservation_handshake.2.2 { c5_colonist with reserved_by := some 0 }
     0 1 rfl (by decide)⟩

/-! ### Claim C6: wave composition monotonicity and bounds -/

theorem wave_composition_ge6 (n : ℤ) (hn : 6 ≤ n) :
    wave_composition n
      = ⟨min 24 (18 + (n - 5)), 5 + (n - 5) / 2,
         3 + max 0 ((n - 5 - 1) / 2), 0, 0, 0⟩ := by
  unfold wave_composition
  rw [if_neg (by omega), if_neg (by omega), if_neg (by omega),
    if_neg (by omega), if_neg (by omega),
    Int.fdiv_eq_ediv _ (by norm_num), Int.fdiv_eq_ediv _ (by norm_num)]

/-- Claim C6 counterexample: the bomber count has no fixed ceiling — for
every candidate ceiling there is a wave number whose bomber count exceeds
it (`bombers = 5 + (wave - 5) // 2` grows without bound), so "every category
respects a fixed ceiling" is false. -/
theorem c6_composition_counterexample :
    ¬ ∃ C : ℤ, ∀ n : ℤ, 1 ≤ n → (wave_composition n).bombers ≤ C := by
  rintro ⟨C, hC⟩
  have hbound := hC (2 * max C 0 + 7) (by omega)
  rw [wave_composition_ge6 (2 * max C 0 + 7) (by omega)] at hbound
  dsimp only at hbound
  omega

/-- Claim C6 (amended): from one wave to the next every category's count is
non-decreasing; the lander count never exceeds its ceiling of 24; the
mutant, swarmer (population-only, never scheduled) and baiter categories are
always 0 in the composition; but the bomber and pod counts are unbounded —
they have no fixed ceiling (see the counterexample). -/
theorem c6_composition_monotone_bounded (n : ℤ) (hn : 1 ≤ n) :
    ((wave_composition n).landers ≤ (wave_composition (n + 1)).landers ∧
     (wave_composition n).bombers ≤ (wave_composition (n + 1)).bombers ∧
     (wave_composition n).pods ≤ (wave_composition (n + 1)).pods ∧
     (wave_composition n).mutants ≤ (wave_composition (n + 1)).mutants ∧
     (wave_composition n).swarmer ≤ (wave_composition (n + 1)).swarmer ∧
     (wave_composition n).baiters ≤ (wave_composition (n + 1)).baiters) ∧
    (wave_composition n).landers ≤ 24 ∧
    (wave_composition n).mutants = 0 ∧
    (wave_composition n).swarmer = 0 ∧
    (wave_composition n).baiters = 0 := by
  by_cases h1 : n = 1
  · subst h1; decide
  · by_cases h2 : n = 2
    · subst h2; decide
    · by_cases h3 : n = 3
      · subst h3; decide
      · by_cases h4 : n = 4
        · subst h4; decide
        · by_cases h5 : n = 5
          · subst h5; decide
          · have h6 : 6 ≤ n := by omega
            rw [wave_composition_ge6 n h6, wave_composition_ge6 (n + 1) (by omega)]
            dsimp only
            refine ⟨⟨?_, ?_, ?_, ?_, ?_, ?_⟩, ?_, ?_, ?_, ?_⟩ <;> omega

/-- Claim C6 witness: concrete instance of the amended claim at wave 7. -/
theorem c6_composition_witness :
    ((wave_composition 7).landers ≤ (wave_composition 8).landers ∧
     (wave_composition 7).bombers ≤ (wave_composition 8).bombers ∧
     (wave_composition 7).pods ≤ (wave_composition 8).pods ∧
     (wave_composition 7).mutants ≤ (wave_composition 8).mutants ∧
     (wave_composition 7).swarmer ≤ (wave_composition 8).swarmer ∧
     (wave_composition 7).baiters ≤ (wave_composition 8).baiters) ∧
    (wave_composition 7).landers ≤ 24 ∧
    (wave_composition 7).mutants = 0 ∧
    (wave_composition 7).swarmer = 0 ∧
    (wave_composition 7).baiters = 0 :=
  c6_composition_monotone_bounded 7 (by decide)

/-! ### Claim C7: spawn queue drain order -/

theorem spawnLe_refl (a : SpawnEntry) : spawnLe a a := by
  unfold spawnLe
  exact Or.inr ⟨rfl, le_refl _⟩

theorem spawnLe_trans {a b c : SpawnEntry} (h1 : spawnLe a b) (h2 : spawnLe b c) :
    spawnLe a c := by
  unfold spawnLe at *
  rcases h1 with h1 | ⟨h1, h1s⟩ <;> rcases h2 with h2 | ⟨h2, h2s⟩
  · exact Or.inl (lt_trans h1 h2)
  · exact Or.inl (h2 ▸ h1)
  · exact Or.inl (h1 ▸ h2)
  · exact Or.inr ⟨h1.trans h2, h1s.trans h2s⟩

theorem spawnLe_total (a b : SpawnEntry) : spawnLe a b ∨ spawnLe b a := by
  unfold spawnLe
  rcases lt_trichotomy a.time b.time with h | h | h
  · exact Or.inl (Or.inl h)
  · rcases le_total a.seq b.seq with hs | hs
    · exact Or.inl (Or.inr ⟨h, hs⟩)
    · exact Or.inr (Or.inr ⟨h.symm, hs⟩)
  · exact Or.inr (Or.inl h)

/-- `popMin` returns an element of the list that is minimal, and the
remainder's elements all come from the list. -/
theorem popMin_spec : ∀ (l : List SpawnEntry) (m : SpawnEntry)
    (r : List SpawnEntry), popMin l = some (m, r) →
    m ∈ l ∧ (∀ x ∈ l, spawnLe m x) ∧ (∀ x ∈ r, x ∈ l)
  | [], m, r => by intro h; simp [popMin] at h
  | e :: es, m, r => by
    intro h
    unfold popMin at h
    rcases hes : popMin es with _ | ⟨m', r'⟩
    · rw [hes] at h
      dsimp only at h
      simp only [Option.some.injEq, Prod.mk.injEq] at h
      obtain ⟨rfl, rfl⟩ := h
      have hnil : es = [] := by
        cases es with
        | nil => rfl
        | cons a t =>
            exfalso
            unfold popMin at hes
            rcases hpt : popMin t with _ | p <;> rw [hpt] at hes <;>
              dsimp only at hes
            · simp at hes
            · by_cases hc : spawnLe a p.1 <;> simp [hc] at hes
      subst hnil
      refine ⟨List.mem_cons_self _ _, ?_, ?_⟩
      · intro x hx
        rcases List.mem_cons.mp hx with rfl | hx
        · exact spawnLe_refl _
        · simp at hx
      · intro x hx
        simp at hx
    · rw [hes] at h
      dsimp only at h
      have ih := popMin_spec es m' r' hes
      by_cases hc : spawnLe e m'
      · rw [if_pos hc] at h
        simp only [Option.some.injEq, Prod.mk.injEq] at h
        obtain ⟨rfl, rfl⟩ := h
        refine ⟨List.mem_cons_self _ _, ?_, fun x hx => List.mem_cons_of_mem _ hx⟩
        intro x hx
        rcases List.mem_cons.mp hx with rfl | hx
        · exact spawnLe_refl _
        · exact spawnLe_trans hc (ih.2.1 x hx)
      · rw [if_neg hc] at h
        simp only [Option.some.injEq, Prod.mk.injEq] at h
        obtain ⟨rfl, rfl⟩ := h
        have hme : spawnLe m' e := (spawnLe_total e m').resolve_left hc
        refine ⟨List.mem_cons_of_mem _ ih.1, ?_, ?_⟩
        · intro x hx
          rcases List.mem_cons.mp hx with rfl | hx
          · exact hme
          · exact ih.2.1 x hx
        · intro x hx
          rcases List.mem_cons.mp hx with rfl | hx
          · exact List.mem_cons_self _ _
          · exact List.mem_cons_of_mem _ (ih.2.2 x hx)

theorem drainFuel_subset (timer : ℚ) : ∀ (f : ℕ) (l : List SpawnEntry),
    ∀ x ∈ drainFuel timer f l, x ∈ l
  | 0, l => by intro x hx; simp [drainFuel] at hx
  | Nat.succ n, l => by
    intro x hx
    unfold drainFuel at hx
    rcases hp : popMin l with _ | ⟨m, r⟩ <;> rw [hp] at hx <;> dsimp only at hx
    · simp at hx
    · by_cases ht : m.time ≤ timer
      · rw [if_pos ht] at hx
        rcases List.mem_cons.mp hx with rfl | hx
        · exact (popMin_spec l x r hp).1
        · exact (popMin_spec l m r hp).2.2 x (drainFuel_subset timer n r x hx)
      · rw [if_neg ht] at hx
        simp at hx

theorem drainFuel_sorted (timer : ℚ) : ∀ (f : ℕ) (l : List SpawnEntry),
    List.Pairwise spawnLe (drainFuel timer f l)
  | 0, l => by simp [drainFuel]
  | Nat.succ n, l => by
    unfold drainFuel
    rcases hp : popMin l with _ | ⟨m, r⟩ <;> dsimp only
    · simp
    · by_cases ht : m.time ≤ timer
      · rw [if_pos ht]
        refine List.Pairwise.cons ?_ (drainFuel_sorted timer n r)
        intro x hx
        exact (popMin_spec l m r hp).2.1 x
          ((popMin_spec l m r hp).2.2 x (drainFuel_subset timer n r x hx))
      · rw [if_neg ht]
        simp

/-- Claim C7: the per-frame drain loop emits pending spawns in non-decreasing
`(scheduled_time, insertion_sequence)` order — times never decrease, and
entries with equal times come out in insertion-sequence order — and
`queue_spawn` assigns each submission the next (strictly increasing) sequence
number, so among spawns scheduled for the same instant the materialization
order is the submission order. -/
theorem c7_spawn_fifo :
    (∀ (timer : ℚ) (l : List SpawnEntry),
      List.Pairwise spawnLe (drain timer l)) ∧
    (∀ (q : SpawnQueue) (delay : ℚ),
      (queue_spawn q delay).spawn_sequence = q.spawn_sequence + 1 ∧
      (queue_spawn q delay).pending
        = ⟨q.wave_timer + delay, q.spawn_sequence + 1⟩ :: q.pending) :=
  ⟨fun timer l => drainFuel_sorted timer l.length l,
   fun _ _ => ⟨rfl, rfl⟩⟩

/-! ### Claim C8: hyperspace jump with no safe candidate -/

theorem shard_filter_nil (ds : List ℚ) (hds : ∀ d ∈ ds, d ≤ 1) :
    (ds.map fun d => d - 1).filter (fun d => decide (0 < d)) = [] := by
  rw [List.filter_eq_nil_iff]
  intro a ha
  rcases List.mem_map.mp ha with ⟨d, hd, rfl⟩
  have := hds d hd
  simp only [decide_eq_true_eq]
  linarith

/-- Claim C8 counterexample: when all three candidates are unsafe the
destination is a fresh fourth random draw, not the last-tried candidate —
with terrain at a constant height 650, candidates at `y = 0` are all outside
the playable band, and the jump lands at `draws 3 = (300, 0)`, which differs
from the last-tried candidate `draws 2 = (200, 0)`. -/
theorem c8_jump_counterexample :
    perform_hyperspace_jump (fun _ => 650) [] []
        (fun i => ((100 * i : ℚ), 0))
      = (((300 : ℚ), (0 : ℚ)), false) ∧
    ((300 : ℚ), (0 : ℚ)) ≠ (((100 : ℚ) * 2), (0 : ℚ)) := by
  constructor
  · unfold perform_hyperspace_jump is_hyperspace_safe
    norm_num [SCREEN_HEIGHT]
  · simp only [ne_eq, Prod.mk.injEq]
    norm_num

/-- Claim C8 (amended): when all three random candidates fail the safety
test, the jump still always produces a destination — a FRESH fourth random
draw (not the last-tried candidate), used unsafely — the player takes a hit
exactly once, and the teleport state machine still completes: four frames
(dt = 1) after entering `vanish` it is back to `idle` with exactly one hit
recorded and the player at the fourth draw.  The last conjunct shows a jump
always produces one of the four drawn positions, whatever the safety
outcomes. -/
theorem c8_jump_unsafe_completes (terrain : ℚ → ℚ)
    (enemies mines : List (ℚ × ℚ)) (draws : ℕ → ℚ × ℚ) (ds : List ℚ)
    (p0 : ℚ × ℚ) (w0 : Bool)
    (h0 : is_hyperspace_safe terrain enemies mines (draws 0).1 (draws 0).2
        = false)
    (h1 : is_hyperspace_safe terrain enemies mines (draws 1).1 (draws 1).2
        = false)
    (h2 : is_hyperspace_safe terrain enemies mines (draws 2).1 (draws 2).2
        = false)
    (hds : ∀ d ∈ ds, d ≤ 1) :
    (perform_hyperspace_jump terrain enemies mines draws).1 = draws 3 ∧
    hs_frame terrain enemies mines draws ds 1
        (hs_frame terrain enemies mines draws ds 1
          (hs_frame terrain enemies mines draws ds 1
            (hs_frame terrain enemies mines draws ds 1
              ⟨HPhase.vanish, 0, 0, [], 0, p0, w0⟩)))
      = ⟨HPhase.idle, 0, 0, [], 1, draws 3, true⟩ ∧
    (∀ d : ℕ → ℚ × ℚ,
      (perform_hyperspace_jump terrain enemies mines d).1
        ∈ [d 0, d 1, d 2, d 3]) := by
  have hjump : perform_hyperspace_jump terrain enemies mines draws
      = (draws 3, false) := by
    unfold perform_hyperspace_jump
    rw [h0, h1, h2]
    simp
  refine ⟨by rw [hjump], ?_, ?_⟩
  · have e1 : hs_frame terrain enemies mines draws ds 1
        ⟨HPhase.vanish, 0, 0, [], 0, p0, w0⟩
        = ⟨HPhase.jump, 0, 0, [], 1, draws 3, true⟩ := by
      norm_num [hs_frame, update_hyperspace, update_shards, hjump,
        HYPERSPACE_VANISH_TIME]
    have e2 : hs_frame terrain enemies mines draws ds 1
        ⟨HPhase.jump, 0, 0, [], 1, draws 3, true⟩
        = ⟨HPhase.reappear, 0, 0, [], 1, draws 3, true⟩ := by
      norm_num [hs_frame, update_hyperspace, update_shards,
        HYPERSPACE_REAPPEAR_DELAY, shard_filter_nil ds hds]
    have e3 : hs_frame terrain enemies mines draws ds 1
        ⟨HPhase.reappear, 0, 0, [], 1, draws 3, true⟩
        = ⟨HPhase.stabilize, 0, 0, [], 1, draws 3, true⟩ := by
      norm_num [hs_frame, update_hyperspace, update_shards,
        HYPERSPACE_REAPPEAR_TIME]
    have e4 : hs_frame terrain enemies mines draws ds 1
        ⟨HPhase.stabilize, 0, 0, [], 1, draws 3, true⟩
        = ⟨HPhase.idle, 0, 0, [], 1, draws 3, true⟩ := by
      norm_num [hs_frame, update_hyperspace, update_shards,
        HYPERSPACE_STABILIZE_TIME]
    rw [e1, e2, e3, e4]
  · intro d
    unfold perform_hyperspace_jump
    split_ifs <;> simp

/-- Claim C8 witness: concrete flat terrain at height 650, no enemies or
mines, candidates at `y = 0` (outside the playable band, hence unsafe), two
inbound shards of durations 1/2 and 1/4. -/
theorem c8_jump_unsafe_witness :
    (perform_hyperspace_jump (fun _ => 650) [] []
        (fun i => ((100 * i : ℚ), 0))).1 = ((300 : ℚ), (0 : ℚ)) ∧
    hs_frame (fun _ => 650) [] [] (fun i => ((100 * i : ℚ), 0)) [1/2, 1/4] 1
        (hs_frame (fun _ => 650) [] [] (fun i => ((100 * i : ℚ), 0)) [1/2, 1/4] 1
          (hs_frame (fun _ => 650) [] [] (fun i => ((100 * i : ℚ), 0)) [1/2, 1/4] 1
            (hs_frame (fun _ => 650) [] [] (fun i => ((100 * i : ℚ), 0)) [1/2, 1/4] 1
              ⟨HPhase.vanish, 0, 0, [], 0, ((0 : ℚ), (0 : ℚ)), false⟩)))
      = ⟨HPhase.idle, 0, 0, [], 1, ((300 : ℚ), (0 : ℚ)), true⟩ := by
  have h := c8_jump_unsafe_completes (fun _ => 650) [] []
    (fun i => ((100 * i : ℚ), 0)) [1/2, 1/4] ((0 : ℚ), (0 : ℚ)) false
    (by norm_num [is_hyperspace_safe, SCREEN_HEIGHT])
    (by norm_num [is_hyperspace_safe, SCREEN_HEIGHT])
    (by norm_num [is_hyperspace_safe, SCREEN_HEIGHT])
    (by intro d hd; simp at hd; rcases hd with h | h <;> norm_num [h])
  refine ⟨?_, ?_⟩
  · rw [h.1]; norm_num
  · rw [h.2.1]; norm_num

/-! ### Claim C9: captured colonist destroyed externally -/

/-- Concrete mid-descent lander holding a target, at altitude 500 (below the
patrol band, so the clamp saturates at 330). -/
def c9_lander : LanderSt :=
  { y := 500, home_altitude := 250, patrol_direction := 1,
    lstate := LState.descending, target := some 0 }

/-- Claim C9 counterexample: after `on_captive_removed` the home altitude is
NOT freshly randomized — it is the deterministic clamp of the current
altitude into the patrol band, identical under every random draw (both
possible direction draws shown), namely `clamp 500 210 330 = 330` here. -/
theorem c9_notify_counterexample :
    (on_captive_removed 1 c9_lander).home_altitude = 330 ∧
    (on_captive_removed (-1) c9_lander).home_altitude = 330 ∧
    clamp c9_lander.y (PLAYFIELD_TOP + 40) (PLAYFIELD_TOP + 160) = 330 := by
  refine ⟨?_, ?_, ?_⟩ <;>
    norm_num [on_captive_removed, clamp, c9_lander, PLAYFIELD_TOP, HUD_HEIGHT,
      min_def, max_def]

/-- Claim C9 (amended): when the held colonist dies externally while
`captured`, the carrying hostile is notified: it clears its target, returns
to `patrolling`, sets its home altitude to its CURRENT altitude clamped into
the patrol band (not a fresh random value), and takes a freshly randomized
patrol direction (the random draw `r`).  The colonist itself ends `dead`,
invisible, with its reservation cleared. -/
theorem c9_captive_removed (r : ℤ) (h : Human) (l : LanderSt)
    (hcap : h.cstate = CState.captured)
    (hst : l.lstate = LState.descending ∨ l.lstate = LState.ascending) :
    (human_die r h (some l)).1.cstate = CState.dead ∧
    (human_die r h (some l)).1.visible = false ∧
    (human_die r h (some l)).1.reserved_by = none ∧
    (human_die r h (some l)).2
      = some
          { l with
              target := none
              lstate := LState.patrolling
              home_altitude := clamp l.y (PLAYFIELD_TOP + 40)
                (PLAYFIELD_TOP + 160)
              patrol_direction := r } := by
  have hnd : ¬ h.cstate = CState.dead := by rw [hcap]; simp
  unfold human_die
  rw [if_neg hnd]
  unfold release_reservation on_captive_removed
  rw [if_pos (Or.inl rfl)]
  dsimp only
  rw [if_pos hst]
  exact ⟨rfl, rfl, rfl, rfl⟩

/-- Concrete captured colonist used to witness claim C9. -/
def c9_colonist : Human :=
  { cstate := CState.captured, x := 100, y := 400, vy := 0, visible := true,
    drop_start_y := 400, safe_landing_rewarded := true,
    reserved_by := some 7, carrier := some 7, rect_h := 16 }

/-- Claim C9 witness: concrete instance with random direction draw `-1`. -/
theorem c9_captive_removed_witness :
    (human_die (-1) c9_colonist (some c9_lander)).1.cstate = CState.dead ∧
    (human_die (-1) c9_colonist (some c9_lander)).2
      = some
          { c9_lander with
              target := none
              lstate := LState.patrolling
              home_altitude := clamp c9_lander.y (PLAYFIELD_TOP + 40)
                (PLAYFIELD_TOP + 160)
              patrol_direction := -1 } :=
  ⟨(c9_captive_removed (-1) c9_colonist c9_lander rfl (Or.inl rfl)).1,
   (c9_captive_removed (-1) c9_colonist c9_lander rfl (Or.inl rfl)).2.2.2⟩

/-! ### Claim C10: extra lives -/

/-- Claim C10: `check_extra_life` awards one life exactly when the score has
reached the next `(lives_awarded + 1) * 10000` threshold and the player has
fewer than 5 lives; with 5 or more lives, or below the threshold, nothing
changes; and a threshold is consumed when awarded — a second call with the
same score (below the following multiple of 10000) changes nothing more, so
each threshold is awarded at most once. -/
theorem c10_extra_life :
    (∀ p : PlayerLife, 5 ≤ p.lives → check_extra_life p = p) ∧
    (∀ p : PlayerLife, p.lives < 5 →
      (p.lives_awarded + 1) * 10000 ≤ p.score →
      (check_extra_life p).lives = p.lives + 1 ∧
      (check_extra_life p).lives_awarded = p.lives_awarded + 1 ∧
      (check_extra_life p).score = p.score) ∧
    (∀ p : PlayerLife, p.lives < 5 →
      p.score < (p.lives_awarded + 1) * 10000 →
      check_extra_life p = p) ∧
    (∀ p : PlayerLife, p.score < (p.lives_awarded + 2) * 10000 →
      check_extra_life (check_extra_life p) = check_extra_life p) := by
  refine ⟨?_, ?_, ?_, ?_⟩
  · intro p hp
    unfold check_extra_life
    rw [if_pos hp]
  · intro p hp hs
    unfold check_extra_life
    rw [if_neg (by omega), if_pos hs]
    exact ⟨rfl, rfl, rfl⟩
  · intro p hp hs
    unfold check_extra_life
    rw [if_neg (by omega), if_neg (by omega)]
  · intro p hnext
    unfold check_extra_life
    by_cases h5 : p.lives ≥ 5
    · rw [if_pos h5, if_pos h5]
    · rw [if_neg h5]
      by_cases hs : p.score ≥ (p.lives_awarded + 1) * 10000
      · rw [if_pos hs]
        dsimp only
        by_cases h5' : p.lives + 1 ≥ 5
        · rw [if_pos h5']
        · rw [if_neg h5', if_neg (by omega)]
      · rw [if_neg hs, if_neg h5, if_neg hs]

/-- Concrete player state used to witness claim C10: 2 lives, no thresholds
consumed, score exactly 10000. -/
def c10_player : PlayerLife := { lives := 2, lives_awarded := 0, score := 10000 }

/-- Claim C10 witness: the concrete player gains exactly one life at 10000
points, the threshold is consumed, and a repeated check changes nothing. -/
theorem c10_extra_life_witness :
    (check_extra_life c10_player).lives = 3 ∧
    (check_extra_life c10_player).lives_awarded = 1 ∧
    check_extra_life (check_extra_life c10_player)
      = check_extra_life c10_player :=
  ⟨(c10_extra_life.2.1 c10_player (by decide) (by decide)).1,
   (c10_extra_life.2.1 c10_player (by decide) (by decide)).2.1,
   c10_extra_life.2.2.2 c10_player (by decide)⟩
